import Mathlib

/-!
Verification of the session-management Vuex module
(`src/store/modules/user.js`): an expiring local token cache plus the
Login / GetInfo / Logout action lifecycle with role/permission
normalization.  The JavaScript module is shallowly embedded: each Vuex
action becomes a pure Lean function from the prior session state, the
persisted cache and the outcome of the external network call to the
resulting state, cache and settlement of the returned promise.
-/

/-- Errors a rejected promise can carry in this module: a JavaScript
runtime TypeError, a `new Error(msg)` validation error, or an opaque
error propagated from the external Auth API collaborator. -/
inductive JsError where
  | typeError (msg : String)
  | validationError (msg : String)
  | apiError (tag : String)
  deriving Repr, DecidableEq

/-- How a promise produced by one of the actions settles: resolved with a
payload, rejected with an error, or never settled at all. -/
inductive Settle (α : Type) where
  | resolved (a : α)
  | rejected (e : JsError)
  | pending
  deriving Repr, DecidableEq

/-- One element of a raw permission's `actionEntitySet`; the source reads
its `action` field (`item => item.action`). -/
structure RawActionEntity where
  action : String
  deriving Repr, DecidableEq

/-- A raw permission as delivered by the `getInfo` endpoint: its
`permissionId` and an optional `actionEntitySet` collection (`none` models
the JavaScript field being absent/undefined). -/
structure RawPermission where
  permissionId : String
  actionEntitySet : Option (List RawActionEntity)
  deriving Repr, DecidableEq

/-- A raw role as delivered by the `getInfo` endpoint: an optional
`permissions` collection (`none` models the field being absent). -/
structure RawRole where
  roleId : String
  permissions : Option (List RawPermission)
  deriving Repr, DecidableEq

/-- A normalized permission: the spread of the raw permission
(`...permission`) plus the derived `actionList`. -/
structure NormPermission where
  raw : RawPermission
  actionList : List String
  deriving Repr, DecidableEq

/-- A normalized role: the spread of the raw role (`{ ...result.role }`)
with `permissions` overwritten by the normalized permissions and
`permissionList` added. -/
structure NormRole where
  raw : RawRole
  permissions : List NormPermission
  permissionList : List String
  deriving Repr, DecidableEq

/-- The `result` object of a `getInfo` response:
`{ name, avatar, role, ... }`, `role` optional. -/
structure GetInfoResult where
  name : String
  avatar : String
  role : Option RawRole
  deriving Repr, DecidableEq

/-- A successful `getInfo` response `{ result: {...} }`. -/
structure GetInfoResponse where
  result : GetInfoResult
  deriving Repr, DecidableEq

/-- The `result.role` after `result.role = role` overwrote the raw role
with the normalized one; this is both what `SET_INFO` commits and what
`GetInfo` resolves with. -/
structure NormResult where
  name : String
  avatar : String
  role : NormRole
  deriving Repr, DecidableEq

/-- Value of the `roles` state field: the initial/cleared empty array or a
normalized role object committed by `SET_ROLES`. -/
inductive RolesValue where
  | emptyArr
  | role (r : NormRole)
  deriving Repr, DecidableEq

/-- Value of the `info` state field: the initial empty object or the
normalized result committed by `SET_INFO`. -/
inductive InfoValue where
  | emptyObj
  | result (r : NormResult)
  deriving Repr, DecidableEq

/-- The module's `state` object: token, name, welcome, avatar, roles,
info. -/
structure SessionState where
  token : String
  name : String
  welcome : String
  avatar : String
  roles : RolesValue
  info : InfoValue
  deriving Repr, DecidableEq

/-- The initial state declared in the source: empty strings, empty roles
array, empty info object. -/
def initialState : SessionState :=
  { token := "", name := "", welcome := "", avatar := "",
    roles := RolesValue.emptyArr, info := InfoValue.emptyObj }

/-- Modelled from the spec: the fixed cache key constant, imported in the
source from `@/store/mutation-types` (a file not in the snapshot); the
spec names it the fixed `ACCESS_TOKEN` key.  Its concrete value is
irrelevant to every claim, which only use it as the one fixed key. -/
def ACCESS_TOKEN : String := "Access-Token"

/-- The persisted expiring cache: a list of
(key, value, expiresAtEpochMillis) entries, at most one per key. -/
abbrev Cache := List (String × String × Nat)

/-- Modelled from the spec: `remove` of the expire-plugin-augmented
storage (the plugin attached by `storage.addPlugin(expirePlugin)`; its
source is not in the snapshot).  Per the spec, removing is idempotent and
removing an absent key is not an error. -/
def cacheRemove (c : Cache) (k : String) : Cache :=
  c.filter (fun e => !(e.1 == k))

/-- Modelled from the spec: `set(key, value, expiresAtEpochMillis)` of the
expire-plugin-augmented storage; overwrites any existing entry for the
key. -/
def cacheSet (c : Cache) (k v : String) (exp : Nat) : Cache :=
  (k, v, exp) :: cacheRemove c k

/-- Look up the stored (value, expiry) pair for a key, ignoring expiry. -/
def cacheFind (c : Cache) (k : String) : Option (String × Nat) :=
  (c.find? (fun e => e.1 == k)).map (fun e => e.2)

/-- Modelled from the spec: `get(key)` of the expire-plugin-augmented
storage, with `now` the call-time clock reading.  Returns the stored
value if `now < expiresAtEpochMillis`; otherwise returns absent and
removes the entry (lazy eviction).  The returned cache is the cache after
any eviction. -/
def cacheGet (c : Cache) (now : Nat) (k : String) : Option String × Cache :=
  match cacheFind c k with
  | none => (none, c)
  | some (v, exp) => if now < exp then (some v, c) else (none, cacheRemove c k)

/-- A successful `login` response `{ result: { token } }`. -/
structure LoginResponse where
  result_token : String
  deriving Repr, DecidableEq

/-- Outcome of the external `login(userInfo)` call. -/
inductive LoginOutcome where
  | success (resp : LoginResponse)
  | failure (e : JsError)
  deriving Repr, DecidableEq

/-- Outcome of the external `getInfo()` call. -/
inductive GetInfoOutcome where
  | success (resp : GetInfoResponse)
  | failure (e : JsError)
  deriving Repr, DecidableEq

/-- Outcome of the external `logout(token)` call. -/
inductive LogoutOutcome where
  | success
  | failure (e : JsError)
  deriving Repr, DecidableEq

/-- The number of milliseconds added to the call-time clock reading when
the token is cached: `7 * 24 * 60 * 60 * 1000`. -/
def sevenDaysMillis : Nat := 7 * 24 * 60 * 60 * 1000

/-- The `Login` action.  `now` is the call-time clock reading
(`new Date().getTime()`).  On success it stores the response token in the
cache under `ACCESS_TOKEN` with expiry `now + 7 days`, commits
`SET_TOKEN`, and resolves with no payload; on failure it rejects with the
underlying error and changes nothing. -/
def Login (st : SessionState) (c : Cache) (now : Nat) (out : LoginOutcome) :
    SessionState × Cache × Settle Unit :=
  match out with
  | LoginOutcome.success resp =>
      ({ st with token := resp.result_token },
       cacheSet c ACCESS_TOKEN resp.result_token (now + sevenDaysMillis),
       Settle.resolved ())
  | LoginOutcome.failure e => (st, c, Settle.rejected e)

/-- The error value of the JavaScript TypeError raised by the expression
mapping over `permission.actionEntitySet || ...` when `actionEntitySet`
is absent: the fallback after `||` is a plain empty object, which has no
`map` method. -/
def mapNotAFunctionError : JsError :=
  JsError.typeError "(permission.actionEntitySet || ...).map is not a function"

/-- The error value of the JavaScript TypeError raised by
`result.role.permissions.length` when `permissions` is absent. -/
def lengthOfUndefinedError : JsError :=
  JsError.typeError "Cannot read properties of undefined (reading length)"

/-- The validation rejection of `GetInfo`:
`new Error('getInfo: roles must be a non-null array !')`. -/
def rolesValidationError : JsError :=
  JsError.validationError "getInfo: roles must be a non-null array !"

/-- One step of the permissions `.map` callback: spreads the raw
permission and derives `actionList`.  When `actionEntitySet` is present
it maps each entity to its `action` value in order; when it is absent the
source calls `.map` on the plain-object fallback, which raises a
TypeError. -/
def normalizePermission (p : RawPermission) : Except JsError NormPermission :=
  match p.actionEntitySet with
  | some entities =>
      Except.ok { raw := p, actionList := entities.map (fun item => item.action) }
  | none => Except.error mapNotAFunctionError

/-- The JavaScript `Array.prototype.map` over the permissions: applies
the callback left to right; the first raised error escapes the whole
map. -/
def mapPermissions : List RawPermission → Except JsError (List NormPermission)
  | [] => Except.ok []
  | p :: rest =>
      match normalizePermission p with
      | Except.error e => Except.error e
      | Except.ok np =>
          match mapPermissions rest with
          | Except.error e => Except.error e
          | Except.ok nps => Except.ok (np :: nps)

/-- Normalization of the role inside `GetInfo`: spreads the raw role,
overwrites `permissions` with the normalized list, and sets
`permissionList` to `role.permissions.map(p => p.permissionId)`. -/
def normalizeRole (r : RawRole) (ps : List RawPermission) :
    Except JsError NormRole :=
  match mapPermissions ps with
  | Except.error e => Except.error e
  | Except.ok nps =>
      Except.ok { raw := r, permissions := nps,
                  permissionList := nps.map (fun p => p.raw.permissionId) }

/-- The `GetInfo` action.  `w` is the value returned by the external
greeting collaborator `welcome()`.  Mirrors the source: on network
failure reject; on success test `result.role && result.role.permissions.length > 0`
(reading `.length` of an absent collection raises a TypeError), normalize
the role (a raised TypeError is caught by the outer `.catch` and
rejected), and only then commit `SET_ROLES`, `SET_INFO`, `SET_NAME`,
`SET_AVATAR` and resolve with the result whose `role` was overwritten by
the normalized role. -/
def GetInfo (st : SessionState) (c : Cache) (w : String) (out : GetInfoOutcome) :
    SessionState × Cache × Settle NormResult :=
  match out with
  | GetInfoOutcome.failure e => (st, c, Settle.rejected e)
  | GetInfoOutcome.success resp =>
      match resp.result.role with
      | none => (st, c, Settle.rejected rolesValidationError)
      | some r =>
          match r.permissions with
          | none => (st, c, Settle.rejected lengthOfUndefinedError)
          | some ps =>
              if ps.length > 0 then
                match normalizeRole r ps with
                | Except.error e => (st, c, Settle.rejected e)
                | Except.ok nrole =>
                    let nres : NormResult :=
                      { name := resp.result.name, avatar := resp.result.avatar,
                        role := nrole }
                    ({ st with roles := RolesValue.role nrole,
                               info := InfoValue.result nres,
                               name := resp.result.name,
                               welcome := w,
                               avatar := resp.result.avatar },
                     c, Settle.resolved nres)
              else (st, c, Settle.rejected rolesValidationError)

/-- The `Logout` action.  Mirrors the source exactly: on success of the
external `logout(state.token)` call it commits `SET_TOKEN('')` and
`SET_ROLES([])`, removes the cached token and resolves with no payload;
on failure it only logs (`console.log`), the `resolve()` in the catch
handler is commented out, so neither mutation nor cache removal happens
and the promise never settles. -/
def Logout (st : SessionState) (c : Cache) (out : LogoutOutcome) :
    SessionState × Cache × Settle Unit :=
  match out with
  | LogoutOutcome.success =>
      ({ st with token := "", roles := RolesValue.emptyArr },
       cacheRemove c ACCESS_TOKEN,
       Settle.resolved ())
  | LogoutOutcome.failure _ => (st, c, Settle.pending)

/-! ## Shared lemmas about the cache and normalization -/

theorem cacheFind_remove (c : Cache) (k : String) :
    cacheFind (cacheRemove c k) k = none := by
  induction c with
  | nil => rfl
  | cons e t ih =>
    by_cases h : e.1 == k
    · simp only [cacheRemove, List.filter_cons, h, Bool.not_true] at *
      exact ih
    · simp only [cacheRemove, cacheFind, List.filter_cons, List.find?, h,
        Bool.not_false, if_true, cond_false] at *
      exact ih

theorem cacheFind_set (c : Cache) (k v : String) (exp : Nat) :
    cacheFind (cacheSet c k v exp) k = some (v, exp) := by
  simp [cacheSet, cacheFind, List.find?]

theorem mapPermissions_error_of_missing (ps : List RawPermission)
    (h : ∃ p ∈ ps, p.actionEntitySet = none) :
    mapPermissions ps = Except.error mapNotAFunctionError := by
  induction ps with
  | nil => simp at h
  | cons p rest ih =>
    rcases h with ⟨q, hq, hnone⟩
    rcases List.mem_cons.mp hq with rfl | hmem
    · simp [mapPermissions, normalizePermission, hnone]
    · cases hp : p.actionEntitySet with
      | none => simp [mapPermissions, normalizePermission, hp]
      | some es =>
        simp [mapPermissions, normalizePermission, hp, ih ⟨q, hmem, hnone⟩]

/-! ## Concrete values used by counterexamples and witnesses -/

/-- A concrete prior session state with a live token. -/
def stDemo : SessionState :=
  { token := "T1", name := "alice", welcome := "hi", avatar := "a.png",
    roles := RolesValue.emptyArr, info := InfoValue.emptyObj }

/-- A concrete cache holding the persisted token entry. -/
def cDemo : Cache := cacheSet [] ACCESS_TOKEN "T1" 1000

/-- A concrete getInfo response whose single permission lacks
`actionEntitySet`. -/
def respMissingActions : GetInfoResponse :=
  { result := { name := "alice", avatar := "a.png",
                role := some { roleId := "admin",
                               permissions := some
                                 [{ permissionId := "p1", actionEntitySet := none }] } } }

/-! ## Claims -/

/-- C1, counterexample: at the concrete prior state with token "T1" and
a failing network logout call, Logout leaves the token at "T1" (not
cleared), leaves the persisted cache entry in place, and its promise
never settles — contradicting the claim that Logout clears state,
removes the cache entry and resolves regardless of the network
outcome. -/
theorem C1_logout_failure_counterexample :
    (Logout stDemo cDemo (LogoutOutcome.failure (JsError.apiError "network"))).1.token = "T1"
    ∧ (Logout stDemo cDemo (LogoutOutcome.failure (JsError.apiError "network"))).2.2
        = Settle.pending
    ∧ cacheFind (Logout stDemo cDemo (LogoutOutcome.failure (JsError.apiError "network"))).2.1
        ACCESS_TOKEN = some ("T1", 1000) :=
  ⟨rfl, rfl, rfl⟩

/-- C1, amended: on a successful network logout, Logout clears token and
roles, removes the cached token entry, and resolves with no payload; on
a failing network logout it leaves the session state and the cache
unchanged and its promise never settles (the failure is only logged). -/
theorem C1_logout_behavior (st : SessionState) (c : Cache) :
    ((Logout st c LogoutOutcome.success).1.token = ""
      ∧ (Logout st c LogoutOutcome.success).1.roles = RolesValue.emptyArr
      ∧ cacheFind (Logout st c LogoutOutcome.success).2.1 ACCESS_TOKEN = none
      ∧ (Logout st c LogoutOutcome.success).2.2 = Settle.resolved ())
    ∧ ∀ e : JsError, Logout st c (LogoutOutcome.failure e) = (st, c, Settle.pending) :=
  ⟨⟨rfl, rfl, cacheFind_remove c ACCESS_TOKEN, rfl⟩, fun _ => rfl⟩

/-- C2: evaluated at a response whose single permission lacks the
action-entity collection, GetInfo rejects with the map TypeError and
leaves the session state and cache unchanged — rather than committing an
empty `actionList` as the claim states. -/
theorem C2_missing_actionEntitySet_rejects :
    GetInfo stDemo cDemo "hi" (GetInfoOutcome.success respMissingActions)
      = (stDemo, cDemo, Settle.rejected mapNotAFunctionError) := rfl

/-- C9: Logout never touches name, avatar, info or welcome: with either
network outcome they keep their pre-call values (only token and roles
are ever modified by Logout, and only on success). -/
theorem C9_logout_frame (st : SessionState) (c : Cache) (out : LogoutOutcome) :
    (Logout st c out).1.name = st.name
    ∧ (Logout st c out).1.avatar = st.avatar
    ∧ (Logout st c out).1.info = st.info
    ∧ (Logout st c out).1.welcome = st.welcome := by
  cases out <;> exact ⟨rfl, rfl, rfl, rfl⟩

/-- A concrete getInfo response whose role has an empty permissions
collection. -/
def respEmptyPerms : GetInfoResponse :=
  { result := { name := "alice", avatar := "a.png",
                role := some { roleId := "admin", permissions := some [] } } }

/-- C3: when the role is absent or its permissions collection is empty,
GetInfo rejects with the validation error and leaves every field of the
session state (and the cache) unchanged — it does not default to an
empty permission set. -/
theorem C3_getInfo_rejects_empty (st : SessionState) (c : Cache) (w : String)
    (resp : GetInfoResponse)
    (h : resp.result.role = none
       ∨ ∃ r : RawRole, resp.result.role = some r ∧ r.permissions = some []) :
    GetInfo st c w (GetInfoOutcome.success resp)
      = (st, c, Settle.rejected rolesValidationError) := by
  rcases h with h | ⟨r, hr, hp⟩
  · simp [GetInfo, h]
  · simp [GetInfo, hr, hp]

/-- C3 witness: at the concrete empty-permissions response, GetInfo
rejects with the validation error and changes nothing. -/
theorem C3_witness :
    GetInfo stDemo cDemo "hi" (GetInfoOutcome.success respEmptyPerms)
      = (stDemo, cDemo, Settle.rejected rolesValidationError) :=
  C3_getInfo_rejects_empty stDemo cDemo "hi" respEmptyPerms
    (Or.inr ⟨{ roleId := "admin", permissions := some [] }, rfl, rfl⟩)

/-- C4: with a present role and non-empty permissions, GetInfo is
all-or-nothing: if normalization raises, no field of the session state
changes and it rejects with that error; if normalization succeeds,
roles, info, name, welcome and avatar are all committed and it resolves
with the result whose role field is the normalized role. -/
theorem C4_getInfo_all_or_nothing (st : SessionState) (c : Cache) (w : String)
    (resp : GetInfoResponse) (r : RawRole) (ps : List RawPermission)
    (hrole : resp.result.role = some r) (hps : r.permissions = some ps)
    (hne : ps ≠ []) :
    (∀ e : JsError, normalizeRole r ps = Except.error e →
        GetInfo st c w (GetInfoOutcome.success resp) = (st, c, Settle.rejected e))
    ∧ (∀ nrole : NormRole, normalizeRole r ps = Except.ok nrole →
        GetInfo st c w (GetInfoOutcome.success resp)
          = ({ st with roles := RolesValue.role nrole,
                       info := InfoValue.result
                         { name := resp.result.name, avatar := resp.result.avatar,
                           role := nrole },
                       name := resp.result.name, welcome := w,
                       avatar := resp.result.avatar },
             c,
             Settle.resolved
               { name := resp.result.name, avatar := resp.result.avatar,
                 role := nrole })) := by
  have hlen : ps.length > 0 := by
    cases ps with
    | nil => exact absurd rfl hne
    | cons a t => simp
  constructor
  · intro e he
    simp [GetInfo, hrole, hps, hlen, he]
  · intro nrole hn
    simp [GetInfo, hrole, hps, hlen, hn]

/-- A concrete raw permission with one action, "read". -/
def permRead : RawPermission :=
  { permissionId := "p1", actionEntitySet := some [{ action := "read" }] }

/-- A concrete raw role with the single permission `permRead`. -/
def roleP1 : RawRole := { roleId := "admin", permissions := some [permRead] }

/-- A concrete getInfo response carrying `roleP1`. -/
def respP1 : GetInfoResponse :=
  { result := { name := "alice", avatar := "a.png", role := some roleP1 } }

/-- The normalization of `roleP1`. -/
def nroleP1 : NormRole :=
  { raw := roleP1,
    permissions := [{ raw := permRead, actionList := ["read"] }],
    permissionList := ["p1"] }

/-- C4 witness: at the concrete single-permission response the success
branch applies: all five fields are committed and GetInfo resolves with
the normalized result. -/
theorem C4_witness :
    GetInfo stDemo cDemo "hi" (GetInfoOutcome.success respP1)
      = ({ stDemo with roles := RolesValue.role nroleP1,
                       info := InfoValue.result
                         { name := "alice", avatar := "a.png", role := nroleP1 },
                       name := "alice", welcome := "hi", avatar := "a.png" },
         cDemo,
         Settle.resolved { name := "alice", avatar := "a.png", role := nroleP1 }) :=
  (C4_getInfo_all_or_nothing stDemo cDemo "hi" respP1 roleP1 [permRead] rfl rfl
      (by simp)).2 nroleP1 rfl

/-- C5: a successful Login sets the session token to the response token,
stores it in the cache under the fixed key with expiry equal to the
call-time clock reading plus 7 days (7*24*60*60*1000 ms), and resolves
with no payload. -/
theorem C5_login_success (st : SessionState) (c : Cache) (now : Nat)
    (resp : LoginResponse) :
    (Login st c now (LoginOutcome.success resp)).1.token = resp.result_token
    ∧ cacheFind (Login st c now (LoginOutcome.success resp)).2.1 ACCESS_TOKEN
        = some (resp.result_token, now + 7 * 24 * 60 * 60 * 1000)
    ∧ (Login st c now (LoginOutcome.success resp)).2.2 = Settle.resolved () :=
  ⟨rfl, cacheFind_set c ACCESS_TOKEN resp.result_token (now + sevenDaysMillis), rfl⟩

/-- C6: a failed Login rejects with exactly the underlying API error and
leaves the whole session state and the cache unchanged (no cache
write). -/
theorem C6_login_failure (st : SessionState) (c : Cache) (now : Nat) (e : JsError) :
    Login st c now (LoginOutcome.failure e) = (st, c, Settle.rejected e) := rfl

/-- C7: whenever role normalization succeeds, `permissionList` equals the
`permissionId` values of the normalized permissions, in the order of the
permissions list; and at the singleton example (permissionId "p1",
single action "read") GetInfo commits a role with
`permissionList = ["p1"]` whose permission has `actionList = ["read"]`. -/
theorem C7_permissionList (r : RawRole) (ps : List RawPermission) (nrole : NormRole)
    (h : normalizeRole r ps = Except.ok nrole) :
    nrole.permissionList = nrole.permissions.map (fun p => p.raw.permissionId)
    ∧ (GetInfo stDemo cDemo "hi" (GetInfoOutcome.success respP1)).1.roles
        = RolesValue.role nroleP1
    ∧ nroleP1.permissionList = ["p1"]
    ∧ nroleP1.permissions.map (fun p => p.actionList) = [["read"]] := by
  refine ⟨?_, rfl, rfl, rfl⟩
  unfold normalizeRole at h
  cases hm : mapPermissions ps with
  | error e => rw [hm] at h; cases h
  | ok nps => rw [hm] at h; cases h; rfl

/-- C7 witness: the general invariant instantiated at the singleton
example role. -/
theorem C7_witness :
    nroleP1.permissionList = nroleP1.permissions.map (fun p => p.raw.permissionId)
    ∧ (GetInfo stDemo cDemo "hi" (GetInfoOutcome.success respP1)).1.roles
        = RolesValue.role nroleP1
    ∧ nroleP1.permissionList = ["p1"]
    ∧ nroleP1.permissions.map (fun p => p.actionList) = [["read"]] :=
  C7_permissionList roleP1 [permRead] nroleP1 rfl

/-- C8: for a key stored in the cache with value v and expiry exp, get
returns v while the call-time reading is strictly before exp; once exp
has passed, get returns absent and removes the entry, so a later get at
any time also returns absent. -/
theorem C8_cache_expiry (c : Cache) (k v : String) (exp now now2 : Nat)
    (hfind : cacheFind c k = some (v, exp)) :
    (now < exp → (cacheGet c now k).1 = some v)
    ∧ (exp ≤ now →
        (cacheGet c now k).1 = none
        ∧ (cacheGet (cacheGet c now k).2 now2 k).1 = none) := by
  constructor
  · intro h
    simp [cacheGet, hfind, h]
  · intro h
    have hnot : ¬ now < exp := Nat.not_lt.mpr h
    refine ⟨by simp [cacheGet, hfind, hnot], ?_⟩
    have h2 : (cacheGet c now k).2 = cacheRemove c k := by
      simp [cacheGet, hfind, hnot]
    rw [h2]
    simp [cacheGet, cacheFind_remove]

/-- C8 witness: a concrete entry set with expiry 10 read at time 20 is
absent, and reading again at time 99 is still absent. -/
theorem C8_witness :
    (20 < 10 → (cacheGet (cacheSet [] "k" "v" 10) 20 "k").1 = some "v")
    ∧ (10 ≤ 20 →
        (cacheGet (cacheSet [] "k" "v" 10) 20 "k").1 = none
        ∧ (cacheGet (cacheGet (cacheSet [] "k" "v" 10) 20 "k").2 99 "k").1 = none) :=
  C8_cache_expiry (cacheSet [] "k" "v" 10) "k" "v" 10 20 99 rfl

/-- C10: when the role is present with non-empty permissions but at
least one permission lacks `actionEntitySet`, GetInfo rejects with the
TypeError raised while normalizing that permission and leaves the
session state and cache unchanged — no commit is partially applied. -/
theorem C10_getInfo_no_partial_commit (st : SessionState) (c : Cache) (w : String)
    (resp : GetInfoResponse) (r : RawRole) (ps : List RawPermission)
    (hrole : resp.result.role = some r) (hps : r.permissions = some ps)
    (hbad : ∃ p ∈ ps, p.actionEntitySet = none) :
    GetInfo st c w (GetInfoOutcome.success resp)
      = (st, c, Settle.rejected mapNotAFunctionError) := by
  have hlen : ps.length > 0 := by
    rcases hbad with ⟨p, hp, _⟩
    cases ps with
    | nil => simp at hp
    | cons a t => simp
  have herr : normalizeRole r ps = Except.error mapNotAFunctionError := by
    unfold normalizeRole
    rw [mapPermissions_error_of_missing ps hbad]
  simp [GetInfo, hrole, hps, hlen, herr]

/-- A concrete getInfo response with two permissions, the second of which
lacks `actionEntitySet`. -/
def respSecondMissing : GetInfoResponse :=
  { result := { name := "bob", avatar := "b.png",
                role := some { roleId := "user",
                               permissions := some
                                 [permRead,
                                  { permissionId := "p2", actionEntitySet := none }] } } }

/-- C10 witness: at the concrete two-permission response whose second
permission lacks `actionEntitySet`, GetInfo rejects with the TypeError
and nothing is committed. -/
theorem C10_witness :
    GetInfo stDemo cDemo "hi" (GetInfoOutcome.success respSecondMissing)
      = (stDemo, cDemo, Settle.rejected mapNotAFunctionError) :=
  C10_getInfo_no_partial_commit stDemo cDemo "hi" respSecondMissing _ _ rfl rfl
    ⟨{ permissionId := "p2", actionEntitySet := none },
     List.mem_cons_of_mem _ (List.mem_cons_self _ _), rfl⟩
